import Mathlib

/-!
Court-order document pipeline — shallow embedding.

A shallow embedding of the document-to-action pipeline of `app/main.py`:
a four-stage sequential state machine (extract text → parse entities →
validate customer → execute action) threading a mutable context
(`GraphState`), plus the entity-extraction and customer-matching logic.

Modelling conventions:
* The Python `GraphState` TypedDict (`total=False`) is a record of
  `Option` fields, `none` meaning "key absent".  The keys `national_id`
  and `action` can be *present with value `None`* (the parse stage stores
  `parsed.get(...)`, which may be `None`), and Python's `state.get(k)`
  does not distinguish that from absence while `'error' in state` checks
  presence; so those two fields are modelled as `Option (Option String)`.
* External decoders (PDF / DOCX / UTF-8 / OCR) are abstracted into the
  uploaded file: `UploadFile.decode` is the outcome the applicable
  format-specific decoder would produce on the file's bytes.  The model
  of `extract_text_from_any_file` additionally reports (second component)
  whether a decoder was invoked at all — `False` exactly on the
  unsupported-suffix branch, which returns the sentinel text.
* `normalize_language` never raises and never fails the pipeline (its
  `except` returns the input); it is modelled as an arbitrary total
  function `String → String` parameterising a run.
* The customer registry (`CUSTOMER_DB`, columns `national_id`,
  `customer_id`) is a list of string pairs in row order; pandas row
  filtering plus `.iloc[0]` is first-match `List.find?`.  The in-place
  column assignment on line 154 of the source is modelled by the
  validate stage returning the (possibly rewritten) registry.
* Executed action handlers are recorded in an explicit call log so that
  "no handler is ever invoked" is a statement of the model.
* Word characters (`\w` of the Python regexes) and lower-casing are
  modelled on the ASCII range, which covers every keyword and message in
  the source.
-/

/-- Outcome of running a format-specific decoder: the decoded text, or
the message of a raised exception. -/
inductive DecodeOutcome where
  | ok (text : String)
  | err (msg : String)
deriving DecidableEq, Repr

/-- An uploaded file: its declared name, and the outcome of the
format-specific decoder on its bytes. -/
structure UploadFile where
  filename : String
  decode : DecodeOutcome
deriving DecidableEq, Repr

/-- The per-request processing context (`GraphState` TypedDict,
`total=False`): each field `none` when the key is absent. -/
structure GraphState where
  file : Option UploadFile := none
  text : Option String := none
  national_id : Option (Option String) := none
  action : Option (Option String) := none
  customer_id : Option String := none
  result : Option String := none
  error : Option String := none
deriving DecidableEq, Repr

/-- Rendering of an optional string inside a Python f-string: `None`
prints as the four characters `None`. -/
def pyStr : Option String → String
  | some s => s
  | none => "None"

/-- Python `str.lower()` on the ASCII range, written as a list-level map
(provably equal to `String.toLower`, see `pyLower_eq_toLower`; the
library implementation recurses on byte positions and does not
kernel-reduce on concrete inputs). -/
def pyLower (s : String) : String := ⟨s.data.map Char.toLower⟩

/-- Python `str.strip()`: drop leading and trailing whitespace. -/
def pyStrip (s : String) : String :=
  ⟨((s.data.dropWhile (·.isWhitespace)).reverse.dropWhile (·.isWhitespace)).reverse⟩

/-- Python `str.endswith(suffix)`. -/
def strEndsWith (s suffix : String) : Bool := suffix.data.isSuffixOf s.data

/-- Suffix dispatch of `extract_text_from_any_file` (main.py 47-58): is
the (already lower-cased) filename one of the supported formats? -/
def supportedSuffix (filename : String) : Bool :=
  strEndsWith filename ".pdf" || strEndsWith filename ".docx" || strEndsWith filename ".txt"
    || strEndsWith filename ".png" || strEndsWith filename ".jpg" || strEndsWith filename ".jpeg"

/-- Model of `extract_text_from_any_file` (main.py 41-67): dispatch on
the lower-cased filename suffix; a supported suffix runs the
corresponding decoder (which may raise), an unknown suffix returns the
sentinel text `"Unsupported file type"` without touching the bytes.
Second component: whether any decoder was invoked. -/
def extract_text_from_any_file (f : UploadFile) : DecodeOutcome × Bool :=
  if supportedSuffix (pyLower f.filename) then (f.decode, true)
  else (.ok "Unsupported file type", false)

/-- The error message of the not-found branch (main.py 161). -/
def notFoundMsg (nid : String) : String :=
  "National ID " ++ nid ++ " not found in bank records. Order discarded."

/-- Word characters (`\w` of the source regexes), on the ASCII range. -/
def isWordChar (c : Char) : Bool := c.isAlphanum || c = '_'

/-- Literal pattern match: consume `lit` from the front of `s`, returning
the rest. -/
def matchLit : List Char → List Char → Option (List Char)
  | [], s => some s
  | _ :: _, [] => none
  | c :: cs, d :: ds => if c = d then matchLit cs ds else none

/-- Pattern `\s*lit`: skip whitespace greedily, then consume `lit` (the
literals used after `\s*` all begin with a non-space, so the greedy
match is the only one). -/
def matchSpacesThen (lit : String) (s : List Char) : Option (List Char) :=
  matchLit lit.data (s.dropWhile (·.isWhitespace))

/-- Alternative `national\s*id` of the national-id regex (main.py 86). -/
def altNationalId (s : List Char) : List (List Char) :=
  match matchLit "national".data s with
  | some r =>
    match matchSpacesThen "id" r with
    | some r2 => [r2]
    | none => []
  | none => []

/-- Alternative `id\s*no\.?`: the optional dot is tried greedily first,
then without, so it can yield two continuation points. -/
def altIdNo (s : List Char) : List (List Char) :=
  match matchLit "id".data s with
  | some r =>
    match matchSpacesThen "no" r with
    | some r2 =>
      match r2 with
      | '.' :: r3 => [r3, r2]
      | _ => [r2]
    | none => []
  | none => []

/-- Alternative `identification\s*number`. -/
def altIdentificationNumber (s : List Char) : List (List Char) :=
  match matchLit "identification".data s with
  | some r =>
    match matchSpacesThen "number" r with
    | some r2 => [r2]
    | none => []
  | none => []

/-- Alternative `nid`. -/
def altNid (s : List Char) : List (List Char) :=
  match matchLit "nid".data s with
  | some r => [r]
  | none => []

/-- Alternative `id number` (literal single space). -/
def altIdNumber (s : List Char) : List (List Char) :=
  match matchLit "id number".data s with
  | some r => [r]
  | none => []

/-- All continuations after a lead-in phrase matched at the current
position, in the alternation order of the source regex. -/
def leadinRemainders (s : List Char) : List (List Char) :=
  altNationalId s ++ altIdNo s ++ altIdentificationNumber s ++ altNid s ++ altIdNumber s

/-- Tail pattern `[^\d]{0,10}(\d{8,20})`: at most ten non-digits, then a
run of at least eight digits, of which the first twenty are captured. -/
def gapDigits (s : List Char) : Option String :=
  let gap := s.takeWhile (fun c => !c.isDigit)
  if gap.length ≤ 10 then
    let ds := (s.drop gap.length).takeWhile (·.isDigit)
    if 8 ≤ ds.length then some ⟨ds.take 20⟩ else none
  else none

/-- Try the full national-id pattern anchored at the current position:
each lead-in continuation in order, then the gap-and-digits tail. -/
def tryIdAt : List (List Char) → Option String
  | [] => none
  | r :: rs =>
    match gapDigits r with
    | some d => some d
    | none => tryIdAt rs

/-- Search (`re.search`) of the national-id pattern, main.py 85-89:
leftmost position wins. -/
def searchNationalId : List Char → Option String
  | [] => none
  | c :: rest =>
    match tryIdAt (leadinRemainders (c :: rest)) with
    | some d => some d
    | none => searchNationalId rest

/-- Does the word `w` match at the current position with `\b` boundaries
on both sides?  `pre` is the character just before the position. -/
def wordHere (w : List Char) (pre : Option Char) (s : List Char) : Bool :=
  w.isPrefixOf s && !(pre.any isWordChar) && !((s.drop w.length).head?.any isWordChar)

/-- Scan for a whole-word occurrence, carrying the previous character. -/
def hasWordFrom (w : List Char) : Option Char → List Char → Bool
  | pre, [] => wordHere w pre []
  | pre, c :: cs => wordHere w pre (c :: cs) || hasWordFrom w (some c) cs

/-- Whole-word search `re.search(rf"\b{word}\b", text)` as a Boolean
(main.py 99). -/
def occursAsWord (w text : String) : Bool :=
  hasWordFrom w.data none text.data

/-- The synonym table of `extract_entities_with_regex` (main.py 91-94),
in the iteration order of the Python dict literal. -/
def action_keywords : List (String × List String) :=
  [("freeze_funds", ["freeze", "block", "hold", "suspend", "restrict"]),
   ("release_funds", ["release", "unfreeze", "lift", "reactivate", "terminate"])]

/-- The double loop with breaks (main.py 96-103): first canonical action
one of whose synonyms occurs as a whole word. -/
def findFirstAction : List (String × List String) → String → Option String
  | [], _ => none
  | (key, syns) :: rest, t =>
    if syns.any (fun w => occursAsWord w t) then some key else findFirstAction rest t

/-- Model of `extract_entities_with_regex` (main.py 82-108): lower-case the text,
then search for the national-id pattern and the first action keyword.
Returns `(national_id, action)`. -/
def extract_entities_with_regex (text : String) : Option String × Option String :=
  let lowered := pyLower text
  (searchNationalId lowered.data, findFirstAction action_keywords lowered)

/-- Action handler `freeze_funds` (main.py 112). -/
def freeze_funds (customer_id : Option String) : String :=
  "Funds frozen for customer " ++ pyStr customer_id

/-- Action handler `release_funds` (main.py 113). -/
def release_funds (customer_id : Option String) : String :=
  "Funds released for customer " ++ pyStr customer_id

/-- The handler table `action_function_map` (main.py 115-118). -/
def action_function_map : List (String × (Option String → String)) :=
  [("freeze_funds", freeze_funds), ("release_funds", release_funds)]

/-- Lookup behind `action not in action_function_map` (main.py 174), for
the possibly-`None` parsed action (`None` is not a key of the map). -/
def actionLookup : Option String → Option (Option String → String)
  | none => none
  | some a => action_function_map.lookup a

/-- Stage 1, `extract_text_node` (main.py 122-132): read the file from the state
(a missing key raises `KeyError('file')`), run extraction, then language
normalization (`normalize`, total — its failures degrade to pass-through
inside `normalize_language`), and store the text; any exception is
caught and recorded as the stage error.  Note: no check of a prior
`error`. -/
def extract_text_node (normalize : String → String) (s : GraphState) : GraphState :=
  match s.file with
  | none => { s with error := some "Failed to extract text: 'file'" }
  | some f =>
    match (extract_text_from_any_file f).1 with
    | .ok raw => { s with text := some (normalize raw) }
    | .err e => { s with error := some ("Failed to extract text: " ++ e) }

/-- Stage 2, `parse_text_node` (main.py 134-144): parse entities out of
`state.get("text", "")` and store both fields (possibly as present-but-
`None`).  No operation here can raise.  Note: no check of a prior
`error`. -/
def parse_text_node (s : GraphState) : GraphState :=
  let text := s.text.getD ""
  let parsed := extract_entities_with_regex text
  { s with national_id := some parsed.1, action := some parsed.2 }

/-- The in-place normalization of the registry's `national_id` column
performed by `validate_customer_node` (main.py 154):
`astype(str).str.strip()` on every row. -/
def normalizeRegistry (reg : List (String × String)) : List (String × String) :=
  reg.map (fun r => (pyStrip r.1, r.2))

/-- Stage 3, `validate_customer_node` (main.py 146-166): `state.get("national_id")`
(flattening a present-but-`None` value), Python falsiness check (`None`
or `""`) *before* stripping, then strip, rewrite the registry column in
place, and first-match lookup (`.iloc[0]`).  Returns the new state and
the (possibly rewritten) process-wide registry.  Note: no check of a
prior `error`. -/
def validate_customer_node (reg : List (String × String)) (s : GraphState) :
    GraphState × List (String × String) :=
  match s.national_id.getD none with
  | none => ({ s with error := some "No national ID detected in the document." }, reg)
  | some nid =>
    if nid = "" then
      ({ s with error := some "No national ID detected in the document." }, reg)
    else
      let nid' := pyStrip nid
      let reg' := normalizeRegistry reg
      match reg'.find? (fun r => r.1 == nid') with
      | some row => ({ s with customer_id := some row.2 }, reg')
      | none => ({ s with error := some (notFoundMsg nid') }, reg')

/-- Stage 4, `execute_action_node` (main.py 168-183): pass through unchanged when
`'error' in state`; otherwise dispatch `state.get("action")` through
`action_function_map`, recording every handler invocation (action name,
customer reference) in the returned call log. -/
def execute_action_node (s : GraphState) : GraphState × List (String × Option String) :=
  if s.error.isSome then (s, [])
  else
    let action := s.action.getD none
    match actionLookup action with
    | none => ({ s with error := some ("Action '" ++ pyStr action ++ "' is not supported.") }, [])
    | some f => ({ s with result := some (f s.customer_id) }, [(pyStr action, s.customer_id)])

/-- The compiled LangGraph workflow (main.py 187-199): the fixed chain
extract → parse → validate → execute.  Returns the final state, the
process-wide registry after the run, and the log of handler
invocations. -/
def runPipeline (normalize : String → String) (reg : List (String × String))
    (s0 : GraphState) : GraphState × List (String × String) × List (String × Option String) :=
  let s1 := extract_text_node normalize s0
  let s2 := parse_text_node s1
  let v := validate_customer_node reg s2
  let e := execute_action_node v.1
  (e.1, v.2, e.2)

/-- The initial state built by `/process_doc` (main.py 211): only the
uploaded file. -/
def initState (f : UploadFile) : GraphState := { file := some f }

/-! Helper lemmas shared by the claim theorems. -/

theorem charToNat_ofNat (n : Nat) (h : n.isValidChar) : (Char.ofNat n).toNat = n := by
  simp [Char.ofNat, h, Char.toNat, Char.ofNatAux, UInt32.toNat]

theorem charToLower_toLower (c : Char) : c.toLower.toLower = c.toLower := by
  unfold Char.toLower
  by_cases h : c.toNat ≥ 65 ∧ c.toNat ≤ 90
  · rw [if_pos h]
    have hv : (c.toNat + 32).isValidChar := Or.inl (by omega)
    have ht : (Char.ofNat (c.toNat + 32)).toNat = c.toNat + 32 := charToNat_ofNat _ hv
    rw [if_neg]
    intro hc
    rw [ht] at hc
    omega
  · rw [if_neg h, if_neg h]

theorem pyLower_eq_toLower (s : String) : pyLower s = s.toLower :=
  (String.map_eq _ _).symm

theorem pyLower_pyLower (s : String) : pyLower (pyLower s) = pyLower s := by
  simp [pyLower, List.map_map, Function.comp_def, charToLower_toLower]

/-- C10: entity extraction is invariant under letter case of the input,
because the extractor lower-cases the text before all matching. -/
theorem extract_entities_case_invariant (text : String) :
    extract_entities_with_regex text = extract_entities_with_regex text.toLower := by
  unfold extract_entities_with_regex
  rw [← pyLower_eq_toLower, pyLower_pyLower]

/-- C5: if both a freeze_funds synonym and a release_funds synonym occur
as whole words in the text, entity extraction deterministically returns
the action checked first in the fixed priority order: freeze_funds. -/
theorem action_tiebreak_freeze_first (text wf wr : String)
    (hwf : wf ∈ ["freeze", "block", "hold", "suspend", "restrict"])
    (_hwr : wr ∈ ["release", "unfreeze", "lift", "reactivate", "terminate"])
    (hf : occursAsWord wf (pyLower text) = true)
    (_hr : occursAsWord wr (pyLower text) = true) :
    (extract_entities_with_regex text).2 = some "freeze_funds" := by
  have h1 : (["freeze", "block", "hold", "suspend", "restrict"]).any
      (fun w => occursAsWord w (pyLower text)) = true :=
    List.any_eq_true.mpr ⟨wf, hwf, hf⟩
  simp [extract_entities_with_regex, findFirstAction, action_keywords, h1]

/-- Witness for the C5 theorem at a concrete input containing both
keyword families. -/
theorem action_tiebreak_freeze_first_witness :
    (extract_entities_with_regex "Please FREEZE and release the funds").2
      = some "freeze_funds" :=
  action_tiebreak_freeze_first "Please FREEZE and release the funds" "freeze" "release"
    (by decide) (by decide) (by decide) (by decide)

/-- C7: the dispatch stage (given no prior error) fails with the
unsupported-action error exactly when the parsed action is `None` or not
a key of the handler map; otherwise it invokes the registered handler on
the stored customer reference and stores the handler's output string
verbatim as the result. -/
theorem dispatch_action_catalog (s : GraphState) (h : s.error = none) :
    (s.action.getD none = none →
      (execute_action_node s).1.error = some "Action 'None' is not supported."
        ∧ (execute_action_node s).1.result = s.result ∧ (execute_action_node s).2 = [])
    ∧ (∀ a, s.action.getD none = some a → action_function_map.lookup a = none →
      (execute_action_node s).1.error = some ("Action '" ++ a ++ "' is not supported.")
        ∧ (execute_action_node s).1.result = s.result ∧ (execute_action_node s).2 = [])
    ∧ (∀ a g, s.action.getD none = some a → action_function_map.lookup a = some g →
      (execute_action_node s).1.error = none
        ∧ (execute_action_node s).1.result = some (g s.customer_id)
        ∧ (execute_action_node s).2 = [(a, s.customer_id)]) := by
  refine ⟨?_, ?_, ?_⟩
  · intro ha
    simp [execute_action_node, h, ha, actionLookup, pyStr]
  · intro a ha hl
    simp [execute_action_node, h, ha, actionLookup, hl, pyStr]
  · intro a g ha hl
    simp [execute_action_node, h, ha, actionLookup, hl, pyStr]

/-- Witness for the C7 theorem: a state with action `freeze_funds` and a
matched customer dispatches to the freeze handler verbatim. -/
theorem dispatch_action_catalog_witness :
    (execute_action_node
        { action := some (some "freeze_funds"), customer_id := some "CUST001" }).1.result
      = some (freeze_funds (some "CUST001")) :=
  ((dispatch_action_catalog
      { action := some (some "freeze_funds"), customer_id := some "CUST001" } rfl).2.2
    "freeze_funds" freeze_funds rfl rfl).2.1

/-- C1 counterexample: on a PDF whose decoder raises, the extract stage
records an error, yet the parse stage still modifies the context (it
stores the empty parse results) and the validate stage then replaces the
extraction error with its own missing-identifier error — the later
stages do not pass the context through unchanged. -/
theorem short_circuit_counterexample :
    (extract_text_node id (initState ⟨"order.pdf", DecodeOutcome.err "boom"⟩)).error
        = some "Failed to extract text: boom"
    ∧ parse_text_node (extract_text_node id (initState ⟨"order.pdf", DecodeOutcome.err "boom"⟩))
        ≠ extract_text_node id (initState ⟨"order.pdf", DecodeOutcome.err "boom"⟩)
    ∧ (runPipeline id [] (initState ⟨"order.pdf", DecodeOutcome.err "boom"⟩)).1.error
        = some "No national ID detected in the document." :=
  ⟨rfl, by decide, rfl⟩

/-- C1 (amended): only the execute stage short-circuits — whenever the
context reaches `execute_action_node` with `error` set, that stage
passes it through completely unchanged and invokes no action handler;
the parse and validate stages perform no such check and may rewrite the
context (including the error message) after an earlier failure. -/
theorem short_circuit_execute_only (s : GraphState) (h : s.error.isSome = true) :
    execute_action_node s = (s, []) := by
  unfold execute_action_node
  simp [h]

/-- Witness for the amended C1 theorem at a concrete errored context. -/
theorem short_circuit_execute_only_witness :
    execute_action_node { error := some "Failed to extract text: boom" }
      = ({ error := some "Failed to extract text: boom" }, []) :=
  short_circuit_execute_only { error := some "Failed to extract text: boom" } rfl

/-- C2: exactly one of result and error present at completion. -/
theorem pipeline_result_xor_error (normalize : String → String)
    (reg : List (String × String)) (f : UploadFile) :
    ((runPipeline normalize reg (initState f)).1.result.isSome = true
      ∧ (runPipeline normalize reg (initState f)).1.error = none)
    ∨ ((runPipeline normalize reg (initState f)).1.result = none
      ∧ (runPipeline normalize reg (initState f)).1.error.isSome = true) := by
  unfold runPipeline initState extract_text_node
  dsimp only
  cases hx : (extract_text_from_any_file f).1 with
  | err e =>
    unfold parse_text_node
    simp only [Option.getD_none, Option.getD_some]
    have h0 : (extract_entities_with_regex "").1 = none := rfl
    unfold validate_customer_node execute_action_node
    simp [h0]
  | ok raw =>
    unfold parse_text_node
    simp only [Option.getD_none, Option.getD_some]
    cases hid : (extract_entities_with_regex (normalize raw)).1 with
    | none =>
      unfold validate_customer_node execute_action_node
      simp [hid]
    | some nid =>
      unfold validate_customer_node
      simp only [Option.getD_none, Option.getD_some]
      by_cases hempty : nid = ""
      · unfold execute_action_node
        simp [hempty]
      · rw [if_neg hempty]
        cases hfind : List.find? (fun r => r.1 == pyStrip nid) (normalizeRegistry reg) with
        | some row =>
          unfold execute_action_node
          simp only [Option.getD_none, Option.getD_some]
          cases hact : actionLookup ((extract_entities_with_regex (normalize raw)).2) with
          | none => simp [hact]
          | some g => simp [hact]
        | none =>
          unfold execute_action_node
          simp

/-- C9: whenever the execute stage invokes an action handler in a run
started from just the uploaded file, the customer reference passed to
the handler is present and comes from a successful registry match. -/
theorem handler_called_with_matched_customer (normalize : String → String)
    (reg : List (String × String)) (f : UploadFile) (p : String × Option String)
    (hp : p ∈ (runPipeline normalize reg (initState f)).2.2) :
    p.2.isSome = true ∧ ∃ row ∈ normalizeRegistry reg, p.2 = some row.2 := by
  revert hp
  unfold runPipeline initState extract_text_node
  dsimp only
  cases hx : (extract_text_from_any_file f).1 with
  | err e =>
    unfold parse_text_node
    simp only [Option.getD_none, Option.getD_some]
    have h0 : (extract_entities_with_regex "").1 = none := rfl
    unfold validate_customer_node execute_action_node
    simp [h0]
  | ok raw =>
    unfold parse_text_node
    simp only [Option.getD_none, Option.getD_some]
    cases hid : (extract_entities_with_regex (normalize raw)).1 with
    | none =>
      unfold validate_customer_node execute_action_node
      simp [hid]
    | some nid =>
      unfold validate_customer_node
      simp only [Option.getD_none, Option.getD_some]
      by_cases hempty : nid = ""
      · unfold execute_action_node
        simp [hempty]
      · rw [if_neg hempty]
        cases hfind : List.find? (fun r => r.1 == pyStrip nid) (normalizeRegistry reg) with
        | some row =>
          unfold execute_action_node
          simp only [Option.getD_none, Option.getD_some]
          cases hact : actionLookup ((extract_entities_with_regex (normalize raw)).2) with
          | none => simp [hact]
          | some g =>
            simp only [hact]
            intro hp
            simp at hp
            subst hp
            refine ⟨rfl, row, List.mem_of_find?_eq_some hfind, rfl⟩
        | none =>
          unfold execute_action_node
          simp

/-- C6: if the run's parsed identifier is a nonempty, already-stripped
string that is absent from the (normalized) registry, the pipeline ends
with exactly the not-found error message for that identifier, no action
handler is invoked, and no result is produced. -/
theorem not_found_discards_order (normalize : String → String)
    (reg : List (String × String)) (f : UploadFile) (nid : String)
    (hnid : (parse_text_node (extract_text_node normalize (initState f))).national_id
        = some (some nid))
    (hne : nid ≠ "")
    (hstrip : pyStrip nid = nid)
    (hfind : List.find? (fun r => r.1 == nid) (normalizeRegistry reg) = none) :
    (runPipeline normalize reg (initState f)).1.error = some (notFoundMsg nid)
    ∧ (runPipeline normalize reg (initState f)).2.2 = []
    ∧ (runPipeline normalize reg (initState f)).1.result = none := by
  have hres : (parse_text_node (extract_text_node normalize (initState f))).result = none := by
    show (extract_text_node normalize (initState f)).result = none
    unfold extract_text_node initState
    dsimp only
    cases (extract_text_from_any_file f).1 <;> rfl
  unfold runPipeline
  dsimp only
  unfold validate_customer_node
  rw [hnid]
  simp only [Option.getD_some]
  rw [if_neg hne, hstrip, hfind]
  unfold execute_action_node
  simp [hres]

/-- Witness for the C9 theorem: the end-to-end freeze scenario with a
registered identifier produces exactly one handler call, carrying the
matched customer reference. -/
theorem handler_called_with_matched_customer_witness :
    (("freeze_funds", (some "CUST001" : Option String)).2.isSome = true)
    ∧ ∃ row ∈ normalizeRegistry [("1234567890", "CUST001")],
        (("freeze_funds", (some "CUST001" : Option String)).2 = some row.2) :=
  handler_called_with_matched_customer id [("1234567890", "CUST001")]
    ⟨"order.txt", DecodeOutcome.ok "Please freeze account for National ID 1234567890"⟩
    ("freeze_funds", some "CUST001") (by decide)

/-- Witness for the C6 theorem: end-to-end scenario B, freeze order with
an unregistered identifier. -/
theorem not_found_discards_order_witness :
    (runPipeline id [("9999999999", "CUST001")]
        (initState ⟨"order.txt",
          DecodeOutcome.ok "Please freeze account for National ID 1234567890"⟩)).1.error
      = some (notFoundMsg "1234567890")
    ∧ (runPipeline id [("9999999999", "CUST001")]
        (initState ⟨"order.txt",
          DecodeOutcome.ok "Please freeze account for National ID 1234567890"⟩)).2.2 = []
    ∧ (runPipeline id [("9999999999", "CUST001")]
        (initState ⟨"order.txt",
          DecodeOutcome.ok "Please freeze account for National ID 1234567890"⟩)).1.result
      = none :=
  not_found_discards_order id [("9999999999", "CUST001")]
    ⟨"order.txt", DecodeOutcome.ok "Please freeze account for National ID 1234567890"⟩
    "1234567890" (by decide) (by decide) (by decide) (by decide)

/-- C3 counterexample: on an unknown suffix the extraction stage stores
the sentinel `"Unsupported file type"` as the document text with no
error, and the run is surfaced to the caller with the downstream
missing-identifier error, not an unsupported-format error — the sentinel
is treated as extracted document text. -/
theorem unsupported_sentinel_counterexample :
    extract_text_from_any_file ⟨"order.xyz", DecodeOutcome.err "decoder boom"⟩
        = (DecodeOutcome.ok "Unsupported file type", false)
    ∧ (extract_text_node id (initState ⟨"order.xyz", DecodeOutcome.err "decoder boom"⟩)).text
        = some "Unsupported file type"
    ∧ (extract_text_node id (initState ⟨"order.xyz", DecodeOutcome.err "decoder boom"⟩)).error
        = none
    ∧ (runPipeline id [("12345678", "CUST001")]
        (initState ⟨"order.xyz", DecodeOutcome.err "decoder boom"⟩)).1.error
        = some "No national ID detected in the document." :=
  ⟨rfl, rfl, rfl, rfl⟩

/-- C3 (amended): for every filename with an unsupported suffix the
extractor returns the sentinel outcome without invoking any decoder, but
the pipeline does not convert it into an unsupported-format error: the
sentinel flows on as ordinary text and (with pass-through normalization)
the run fails downstream with the missing-identifier error, invoking no
handler. -/
theorem unsupported_suffix_sentinel (name : String) (d : DecodeOutcome)
    (reg : List (String × String))
    (h : supportedSuffix (pyLower name) = false) :
    extract_text_from_any_file ⟨name, d⟩ = (DecodeOutcome.ok "Unsupported file type", false)
    ∧ (runPipeline id reg (initState ⟨name, d⟩)).1.error
        = some "No national ID detected in the document."
    ∧ (runPipeline id reg (initState ⟨name, d⟩)).2.2 = [] := by
  have hx : extract_text_from_any_file ⟨name, d⟩
      = (DecodeOutcome.ok "Unsupported file type", false) := by
    unfold extract_text_from_any_file
    simp [h]
  refine ⟨hx, ?_⟩
  unfold runPipeline initState extract_text_node
  dsimp only
  rw [hx]
  dsimp only
  unfold parse_text_node
  simp only [Option.getD_some, id_eq]
  have h0 : (extract_entities_with_regex "Unsupported file type").1 = none := rfl
  unfold validate_customer_node execute_action_node
  simp [h0]

/-- Witness for the amended C3 theorem at a concrete unknown suffix. -/
theorem unsupported_suffix_sentinel_witness :
    extract_text_from_any_file ⟨"scan.tiff", DecodeOutcome.err "never run"⟩
        = (DecodeOutcome.ok "Unsupported file type", false)
    ∧ (runPipeline id [("12345678", "CUST001")]
        (initState ⟨"scan.tiff", DecodeOutcome.err "never run"⟩)).1.error
        = some "No national ID detected in the document."
    ∧ (runPipeline id [("12345678", "CUST001")]
        (initState ⟨"scan.tiff", DecodeOutcome.err "never run"⟩)).2.2 = [] :=
  unsupported_suffix_sentinel "scan.tiff" (DecodeOutcome.err "never run")
    [("12345678", "CUST001")] (by decide)

/-- C4 counterexample: a run on a registry whose stored identifier
carries surrounding whitespace rewrites the process-wide registry in
place — the validate stage's column normalization is a write, and the
mapping after the run differs from the mapping before it. -/
theorem registry_not_readonly_counterexample :
    (runPipeline id [(" 123 ", "C1")]
        (initState ⟨"a.txt", DecodeOutcome.ok "national id 12345678"⟩)).2.1
      = [("123", "C1")]
    ∧ [(" 123 ", "C1")] ≠ [("123", "C1")] :=
  ⟨by decide, by decide⟩

/-- C4 (amended): the validate stage writes the normalized national-id
column back into the process-wide registry whenever an identifier is
present; the write is the normalization itself, so on a registry that is
already normalized (stringified and stripped) every pipeline run leaves
the registry unchanged. -/
theorem registry_unchanged_when_normalized (normalize : String → String)
    (reg : List (String × String)) (f : UploadFile)
    (h : normalizeRegistry reg = reg) :
    (runPipeline normalize reg (initState f)).2.1 = reg := by
  unfold runPipeline initState extract_text_node
  dsimp only
  cases hx : (extract_text_from_any_file f).1 with
  | err e =>
    unfold parse_text_node
    simp only [Option.getD_none, Option.getD_some]
    have h0 : (extract_entities_with_regex "").1 = none := rfl
    unfold validate_customer_node
    simp [h0]
  | ok raw =>
    unfold parse_text_node
    simp only [Option.getD_none, Option.getD_some]
    cases hid : (extract_entities_with_regex (normalize raw)).1 with
    | none =>
      unfold validate_customer_node
      simp [hid]
    | some nid =>
      unfold validate_customer_node
      simp only [Option.getD_none, Option.getD_some]
      by_cases hempty : nid = ""
      · simp [hempty]
      · rw [if_neg hempty]
        cases hfind : List.find? (fun r => r.1 == pyStrip nid) (normalizeRegistry reg) with
        | some row => simp [h]
        | none => simp [h]

/-- Witness for the amended C4 theorem on an already-normalized
registry. -/
theorem registry_unchanged_when_normalized_witness :
    (runPipeline id [("12345678", "C1")]
        (initState ⟨"a.txt", DecodeOutcome.ok "national id 12345678"⟩)).2.1
      = [("12345678", "C1")] :=
  registry_unchanged_when_normalized id [("12345678", "C1")]
    ⟨"a.txt", DecodeOutcome.ok "national id 12345678"⟩ (by decide)

/-- A not-found message never coincides with the missing-identifier
message, whatever identifier is interpolated. -/
theorem notFoundMsg_ne_missing (x : String) :
    notFoundMsg x ≠ "No national ID detected in the document." := by
  intro h
  have h1 : (notFoundMsg x).data.get? 1 = some 'a' := by
    show (("National ID " ++ x ++ " not found in bank records. Order discarded.").data).get? 1
      = some 'a'
    rw [String.data_append, String.data_append]
    rw [show "National ID ".data = 'N' :: 'a' :: "tional ID ".data from rfl]
    rfl
  rw [h] at h1
  exact absurd h1 (by decide)

/-- C8 counterexample: an upstream identifier consisting of a single
space passes the falsiness check (Python only treats `None` and `""` as
falsy), is stripped to the empty string, and produces the not-found
message — not the missing-identifier message the claim requires. -/
theorem whitespace_id_counterexample :
    (validate_customer_node [] { national_id := some (some " ") }).1.error
        = some (notFoundMsg "")
    ∧ (validate_customer_node [] { national_id := some (some " ") }).1.error
        ≠ some "No national ID detected in the document." := by
  refine ⟨rfl, ?_⟩
  rw [show (validate_customer_node [] { national_id := some (some " ") }).1.error
      = some (notFoundMsg "") from rfl]
  intro hc
  exact notFoundMsg_ne_missing "" (Option.some.inj hc)

/-- C8 (amended): on an error-free context, customer matching produces
the missing-identifier message exactly when the upstream identifier is
`None` or the empty string — the check happens before trimming, so a
whitespace-only identifier instead falls through to the registry lookup
(in a full run this cannot occur, since extracted identifiers are digit
strings). -/
theorem missing_identifier_pre_trim (reg : List (String × String)) (s : GraphState)
    (h : s.error = none) :
    ((validate_customer_node reg s).1.error = some "No national ID detected in the document."
      ↔ (s.national_id.getD none = none ∨ s.national_id.getD none = some "")) := by
  unfold validate_customer_node
  cases hn : s.national_id.getD none with
  | none => simp [hn]
  | some nid =>
    dsimp only
    by_cases hempty : nid = ""
    · simp [hempty]
    · rw [if_neg hempty]
      cases hfind : List.find? (fun r => r.1 == pyStrip nid) (normalizeRegistry reg) with
      | some row => simp [h, hempty]
      | none =>
        simp [hempty]
        exact notFoundMsg_ne_missing (pyStrip nid)

/-- Witness for the amended C8 theorem: a present-but-`None` identifier
yields the missing-identifier message. -/
theorem missing_identifier_pre_trim_witness :
    (validate_customer_node [] { national_id := some none }).1.error
      = some "No national ID detected in the document." :=
  (missing_identifier_pre_trim [] { national_id := some none } rfl).mpr (Or.inl rfl)
